import Mathlib

/-!
Shallow embedding of `amqproto/io/asyncio.py` — the asyncio transport layer of
the amqproto AMQP client — together with theorems about the behaviour of its
`Channel` and `Connection` classes.

The source file wraps a "sans-io" protocol engine (classes
`amqproto.channel.Channel` and `amqproto.connection.Connection`, not part of
the file under study).  Those engine pieces are modelled from the spec where
needed; everything else is translated directly from `asyncio.py`.

Modelling conventions:
  * cooperative async code becomes explicit state passing; each queue
    (`asyncio.Queue`) is a Lean `List` in FIFO order (head = next `get`);
  * `reader.at_eof()` is a boolean field of the state;
  * writing to the socket appends to a `written` list; `data_to_send()` drains
    the engine's `pending_out` buffer;
  * raised exceptions (`ConnectionAbortedError`, re-raised `AMQPError`,
    `AttributeError`) become explicit outcome constructors;
  * a suspension that can never be woken in the modelled scenario (queue `get`
    on an empty queue) is the `blocked` outcome;
  * each operation additionally records a trace of observable actions so that
    ordering claims ("flush before trim", "await task before closing the
    writer") can be stated.
-/

namespace Amqproto

/-- Raw bytes on the wire, one `Nat` per byte. -/
abbrev Bytes := List Nat

/-- AMQP methods that can travel through a reply queue.  The codec is out of
scope; only the identities needed by the transport layer are distinguished. -/
inductive Method where
  | channel_open_ok
  | channel_close_ok
  | connection_close_ok
  | basic_get_ok (delivery_tag : Nat)
  | basic_get_empty
  | confirm_select_ok
  | generic (name : String)
deriving DecidableEq

/-- A value sitting in a reply queue: either a successful method reply or an
`protocol.AMQPError` (which carries the broker's numeric code and text).  In
the Python code the two are distinguished by `isinstance(reply, protocol.AMQPError)`. -/
inductive Reply where
  | method (m : Method)
  | error (reply_code : Nat) (reply_text : String)
deriving DecidableEq

/-- Mirror of `isinstance(reply, protocol.AMQPError)`. -/
def Reply.isError : Reply → Bool
  | .error _ _ => true
  | .method _ => false

/-- A delivered message; only its body matters to the transport layer. -/
structure Message where
  body : Bytes
deriving DecidableEq

/-- An `asyncio.Event` instance.  `gen` is the identity of the instance, so
that "replaced by a fresh event" is observable; `is_set` is its flag. -/
structure Event where
  is_set : Bool
  gen : Nat
deriving DecidableEq

/-- Observable actions of a Channel operation, in program order. -/
inductive ChAction where
  | encoded (name : String)
  | wrote (bytes : Bytes)
  | drained
  | popped_reply (r : Reply)
  | popped_get (m : Option Message)
  | assigned_ack_event
  | set_signal (gen : Nat)
deriving DecidableEq

/-- State of one `amqproto.io.asyncio.Channel` (and of the engine channel it
wraps), as observable by the transport layer. -/
structure ChannelState where
  closed : Bool
  /-- `self.reader.at_eof()` of the shared connection reader. -/
  reader_at_eof : Bool
  /-- Bytes the engine has encoded but not yet flushed (`data_to_send`). -/
  pending_out : Bytes
  /-- Everything written (and drained) to the socket so far. -/
  written : Bytes
  /-- `self._reply_queue`, head = next value `get` returns. -/
  reply_queue : List Reply
  /-- `self._get_queue`; `none` is the "no message" sentinel. -/
  get_queue : List (Option Message)
  /-- `self._consumed_messages`. -/
  consumed_messages : List Message
  /-- `self._returned_messages`. -/
  returned_messages : List Message
  /-- `self._ack_event`; `none` before confirm mode is enabled. -/
  ack_event : Option Event
  /-- Source of fresh `asyncio.Event` identities. -/
  event_gen : Nat
  /-- Generations of events that have been `set()`. -/
  signalled : List Nat
  /-- `self._unconfirmed_set` of the engine channel: outstanding delivery tags. -/
  unconfirmed_set : List Nat
  /-- Trace of observable actions. -/
  trace : List ChAction
deriving DecidableEq

/-- Result of a synchronous Channel operation. -/
inductive FlushOutcome where
  /-- `ConnectionAbortedError` raised. -/
  | connection_aborted
  /-- A popped `protocol.AMQPError` re-raised, with its code and text. -/
  | raised (reply_code : Nat) (reply_text : String)
  /-- Normal return; `none` when no reply was expected (Python `None`). -/
  | returned (m : Option Method)
  /-- Suspended forever on an empty queue. -/
  | blocked
deriving DecidableEq

namespace Channel

/-- The `self.writer.write(self.data_to_send())` + `await self.writer.drain()`
pair of `Channel._flush_outbound`. -/
def write_and_drain (st : ChannelState) : ChannelState :=
  { st with written := st.written ++ st.pending_out,
            pending_out := [],
            trace := st.trace ++ [.wrote st.pending_out, .drained] }

/-- Translation of `Channel._flush_outbound(self, has_reply)`:
if the reader is at end-of-stream raise `ConnectionAbortedError` (before any
write); otherwise write `data_to_send()` and drain; then, if a reply is
expected, pop the reply queue, re-raising the popped value when it is an
`AMQPError` and returning it otherwise. -/
def flush_outbound (has_reply : Bool) (st : ChannelState) :
    FlushOutcome × ChannelState :=
  if st.reader_at_eof then (.connection_aborted, st)
  else
    let st1 : ChannelState := write_and_drain st
    if has_reply then
      match st1.reply_queue with
      | [] => (.blocked, st1)
      | reply :: rest =>
        let st2 : ChannelState :=
          { st1 with reply_queue := rest,
                     trace := st1.trace ++ [.popped_reply reply] }
        match reply with
        | .error c t => (.raised c t, st2)
        | .method m => (.returned (some m), st2)
    else (.returned none, st1)

/-- Modelled from the spec: the protocol codec is out of scope, so a method's
encoding is an abstract but concrete byte string derived from its name. -/
def encode_method (name : String) : Bytes :=
  name.toList.map Char.toNat

/-- Modelled from the spec: a protocol-engine method call ("validate and
encode via the protocol engine") appends the encoded method to the engine's
outbound buffer; the engine "reports whether a reply is expected". -/
def engine_call (name : String) (st : ChannelState) : ChannelState :=
  { st with pending_out := st.pending_out ++ encode_method name,
            trace := st.trace ++ [.encoded name] }

/-- The uniform body shared by every synchronous `Channel` method wrapper in
`asyncio.py` (`exchange_declare`, `queue_declare`, `basic_qos`, ...):
`has_reply = super().method(...)` followed by
`return await self._flush_outbound(has_reply)`. -/
def synchronous_method (name : String) (has_reply : Bool) (st : ChannelState) :
    FlushOutcome × ChannelState :=
  flush_outbound has_reply (engine_call name st)

/-- Translation of `Channel.exchange_declare` (a reply is expected). -/
def exchange_declare (st : ChannelState) : FlushOutcome × ChannelState :=
  synchronous_method "exchange.declare" true st

/-- Translation of `Channel.basic_publish`; the engine reports that no reply
is expected (publish is fire-and-forget). -/
def basic_publish (st : ChannelState) : FlushOutcome × ChannelState :=
  synchronous_method "basic.publish" false st

/-- Modelled from the spec: the engine's `close` call encodes the Close
method together with the caller's reply code and text. -/
def close_method_name (reply_code : Nat) (reply_text : String) : String :=
  "channel.close/" ++ toString reply_code ++ "/" ++ reply_text

/-- Translation of `Channel.close(self, *args)`: a no-op when `self.closed`
is already true, otherwise `super().close(...)` then `_flush_outbound`.
The first component is `none` exactly when the early-out was taken. -/
def close (reply_code : Nat) (reply_text : String) (st : ChannelState) :
    Option FlushOutcome × ChannelState :=
  if st.closed then (none, st)
  else
    let p := flush_outbound true
      (engine_call (close_method_name reply_code reply_text) st)
    (some p.1, p.2)

/-- Result of `Channel.basic_get`. -/
inductive GetOutcome where
  | connection_aborted
  | raised (reply_code : Nat) (reply_text : String)
  /-- Value popped from `self._get_queue`; `none` is the "no message"
  sentinel. -/
  | got (m : Option Message)
  | blocked
deriving DecidableEq

/-- Translation of `Channel.basic_get`: `has_reply = super().basic_get(...)`
(the engine expects a reply unless `no_wait` is set), then
`await self._flush_outbound(has_reply)`, then
`return await self._get_queue.get()`. -/
def basic_get (no_wait : Bool) (st : ChannelState) : GetOutcome × ChannelState :=
  match flush_outbound (!no_wait) (engine_call "basic.get" st) with
  | (.connection_aborted, st') => (.connection_aborted, st')
  | (.raised c t, st') => (.raised c t, st')
  | (.blocked, st') => (.blocked, st')
  | (.returned _, st') =>
    match st'.get_queue with
    | [] => (.blocked, st')
    | m :: rest =>
      (.got m, { st' with get_queue := rest,
                          trace := st'.trace ++ [.popped_get m] })

/-- Translation of `Channel._receive_BasicGetEmpty`: the engine's
`super()._receive_BasicGetEmpty(method)` performs bookkeeping with no
transport-visible effect (modelled from the spec), then the method is put on
the reply queue and the `None` sentinel is put on the get queue. -/
def receive_BasicGetEmpty (st : ChannelState) : ChannelState :=
  { st with reply_queue := st.reply_queue ++ [.method .basic_get_empty],
            get_queue := st.get_queue ++ [none] }

/-- Modelled from the spec: the engine's unconfirmed-message bookkeeping for
`_receive_BasicAck` — an acknowledgment with `multiple` set discards every
outstanding delivery tag up to and including `delivery_tag`, otherwise it
discards exactly that tag. -/
def engine_receive_BasicAck (delivery_tag : Nat) (multiple : Bool)
    (unconfirmed : List Nat) : List Nat :=
  if multiple then unconfirmed.filter (fun t => delivery_tag < t)
  else unconfirmed.filter (fun t => t ≠ delivery_tag)

/-- Translation of `Channel._receive_BasicAck`: after the engine updates
`self._unconfirmed_set`, if that set is (now) empty, `self._ack_event.set()`
is called and `self._ack_event` is replaced by a fresh `asyncio.Event()`.
Returns `none` when `self._ack_event` is `None` (`AttributeError` in
Python). -/
def receive_BasicAck (delivery_tag : Nat) (multiple : Bool)
    (st : ChannelState) : Option ChannelState :=
  let un := engine_receive_BasicAck delivery_tag multiple st.unconfirmed_set
  let st1 : ChannelState := { st with unconfirmed_set := un }
  if un.isEmpty then
    match st1.ack_event with
    | none => none
    | some e =>
      some { st1 with
        signalled := st1.signalled ++ [e.gen],
        ack_event := some ⟨false, st1.event_gen⟩,
        event_gen := st1.event_gen + 1,
        trace := st1.trace ++ [.set_signal e.gen] }
  else some st1

/-- Translation of `Channel.confirm_select`: `self._ack_event` is assigned a
fresh `asyncio.Event()` first, then `has_reply = super().confirm_select(...)`
(a reply is expected), then `_flush_outbound`. -/
def confirm_select (st : ChannelState) : FlushOutcome × ChannelState :=
  let st0 : ChannelState :=
    { st with ack_event := some ⟨false, st.event_gen⟩,
              event_gen := st.event_gen + 1,
              trace := st.trace ++ [.assigned_ack_event] }
  flush_outbound true (engine_call "confirm.select" st0)

/-- Translation of `Channel.wait_for_confirmations`:
`await self._ack_event.wait()` — the caller waits on the current event
instance; the result is the generation waited on, or `none` when
`self._ack_event` is `None` (`AttributeError` in Python). -/
def wait_for_confirmations (st : ChannelState) : Option Nat :=
  st.ack_event.map Event.gen

end Channel

/-- A frame produced by the engine's `receive_frames`: only `channel_id`,
`size` (bytes consumed from the buffer) and a payload are visible to the
transport layer. -/
structure Frame where
  channel_id : Nat
  size : Nat
  payload : Bytes
deriving DecidableEq

/-- Observable actions of the Connection, in program order. -/
inductive ConnAction where
  | encoded (name : String)
  | wrote (bytes : Bytes)
  | drained
  | popped_reply (r : Reply)
  | read_chunk (bytes : Bytes)
  | handled_by_connection (f : Frame)
  | handled_by_channel (id : Nat) (f : Frame)
  | trimmed (n : Nat)
  | awaited_task
  | closed_writer
deriving DecidableEq

/-- State of one `amqproto.io.asyncio.Connection` (and of the engine
connection it wraps), as observable by the transport layer. -/
structure ConnectionState where
  closed : Bool
  /-- `self.reader.at_eof()`. -/
  reader_at_eof : Bool
  /-- Negotiated `self.properties['frame_max']`. -/
  frame_max : Nat
  /-- Bytes the peer has made available on the reader but not yet read. -/
  stream : Bytes
  /-- The local `data` bytearray of `_communicate`. -/
  data : Bytes
  /-- Bytes the engine has encoded but not yet flushed (`data_to_send`). -/
  pending_out : Bytes
  /-- Everything written (and drained) to the socket so far. -/
  written : Bytes
  /-- `self._reply_queue`, head = next value `get` returns. -/
  reply_queue : List Reply
  /-- Ids present in the engine's channel registry (`get_channel`). -/
  channels : List Nat
  /-- Whether `await self._communicate_task` has completed. -/
  task_awaited : Bool
  /-- Whether `self.writer.close()` has been called. -/
  writer_closed : Bool
  /-- Trace of observable actions. -/
  trace : List ConnAction
deriving DecidableEq

namespace Connection

/-- Translation of `Connection._flush_outbound(self)`: raise
`ConnectionAbortedError` (returning `none`) when the reader is at
end-of-stream, otherwise write `data_to_send()` and drain. -/
def flush_outbound (st : ConnectionState) : Option ConnectionState :=
  if st.reader_at_eof then none
  else some
    { st with written := st.written ++ st.pending_out,
              pending_out := [],
              trace := st.trace ++ [.wrote st.pending_out, .drained] }

/-- Failures that abort the `_communicate` frame-processing loop. -/
inductive LoopErr where
  /-- `ConnectionAbortedError` raised by `_flush_outbound`. -/
  | connection_aborted
  /-- `get_channel` lookup failure for a frame with an unknown id. -/
  | unknown_channel (id : Nat)
deriving DecidableEq

/-- The per-frame body of `_communicate`: pick `self.handle_frame` when
`frame.channel_id == 0`, and `self.get_channel(frame.channel_id).handle_frame`
otherwise; run the handler (whose transport-visible effects — parameterised by
`eff` — are bytes queued for sending and possibly marking the connection
closed); then `await self._flush_outbound()`; then `del data[:frame.size]`. -/
def handle_one_frame (eff : Frame → Bytes × Bool) (f : Frame)
    (st : ConnectionState) : Except LoopErr ConnectionState :=
  let dispatched : Option ConnAction :=
    if f.channel_id = 0 then some (.handled_by_connection f)
    else if f.channel_id ∈ st.channels then
      some (.handled_by_channel f.channel_id f)
    else none
  match dispatched with
  | none => .error (.unknown_channel f.channel_id)
  | some act =>
    let st1 : ConnectionState :=
      { st with pending_out := st.pending_out ++ (eff f).1,
                closed := st.closed || (eff f).2,
                trace := st.trace ++ [act] }
    match flush_outbound st1 with
    | none => .error .connection_aborted
    | some st2 =>
      .ok { st2 with data := st2.data.drop f.size,
                     trace := st2.trace ++ [.trimmed f.size] }

/-- The `for frame in self.receive_frames(data)` loop of `_communicate`. -/
def handle_frames (eff : Frame → Bytes × Bool) :
    List Frame → ConnectionState → Except LoopErr ConnectionState
  | [], st => .ok st
  | f :: fs, st =>
    match handle_one_frame eff f st with
    | .error e => .error e
    | .ok st' => handle_frames eff fs st'

/-- The declarative per-frame action sequence of the `_communicate` frame
loop: dispatch (to the connection itself for channel id 0, to the channel
registered under that id otherwise), then flush (write + drain), then trim
the frame's consumed bytes. -/
def frame_actions (eff : Frame → Bytes × Bool) (f : Frame) : List ConnAction :=
  [if f.channel_id = 0 then ConnAction.handled_by_connection f
   else ConnAction.handled_by_channel f.channel_id f,
   .wrote (eff f).1, .drained, .trimmed f.size]

/-- Translation of `chunk = await self.reader.read(10 * frame_max)`: the
reader hands over at most `10 * frame_max` of the available bytes. -/
def read_chunk10 (st : ConnectionState) : Bytes :=
  st.stream.take (10 * st.frame_max)

/-- The state after the read of one loop iteration: the chunk is consumed
from the stream and appended to the `data` buffer. -/
def after_read (st : ConnectionState) : ConnectionState :=
  { st with stream := st.stream.drop (10 * st.frame_max),
            data := st.data ++ read_chunk10 st,
            trace := st.trace ++ [.read_chunk (read_chunk10 st)] }

/-- Why the `_communicate` loop stopped. -/
inductive ExitReason where
  /-- `while not self.closed` observed the flag true. -/
  | closed_flag
  /-- `if not chunk: break` — an empty read. -/
  | end_of_stream
deriving DecidableEq

/-- Result of one iteration of `_communicate`. -/
inductive StepResult where
  | exited (why : ExitReason) (st : ConnectionState)
  | failed (e : LoopErr)
  | next (st : ConnectionState)
deriving DecidableEq

/-- One iteration of `Connection._communicate`: exit when `self.closed` is
observed true at the top; read a chunk of at most `10 * frame_max` bytes and
exit when it is empty; otherwise append it to the buffer and process every
frame `receive_frames` (parameterised as `fo`) extracts. -/
def communicate_step (fo : Bytes → List Frame) (eff : Frame → Bytes × Bool)
    (st : ConnectionState) : StepResult :=
  if st.closed then .exited .closed_flag st
  else if (read_chunk10 st).isEmpty then .exited .end_of_stream st
  else
    match handle_frames eff (fo (after_read st).data) (after_read st) with
    | .error e => .failed e
    | .ok st' => .next st'

/-- Outcome of running `_communicate` with the given amount of fuel. -/
inductive CommOutcome where
  | exited (why : ExitReason) (st : ConnectionState)
  | failed (e : LoopErr)
  | fuel_exhausted (st : ConnectionState)
deriving DecidableEq

/-- The `while not self.closed` loop of `Connection._communicate`, with
explicit fuel. -/
def communicate (fo : Bytes → List Frame) (eff : Frame → Bytes × Bool) :
    Nat → ConnectionState → CommOutcome
  | 0, st => .fuel_exhausted st
  | n + 1, st =>
    match communicate_step fo eff st with
    | .exited why st' => .exited why st'
    | .failed e => .failed e
    | .next st' => communicate fo eff n st'

/-- Modelled from the spec: the engine's `close` call encodes the Close
method together with the caller's reply code and text. -/
def close_method_name (reply_code : Nat) (reply_text : String) : String :=
  "connection.close/" ++ toString reply_code ++ "/" ++ reply_text

/-- Modelled from the spec: a protocol-engine call on the connection appends
the encoded method to the engine's outbound buffer. -/
def engine_call (name : String) (st : ConnectionState) : ConnectionState :=
  { st with pending_out := st.pending_out ++ Channel.encode_method name,
            trace := st.trace ++ [.encoded name] }

/-- Result of `Connection.close`. -/
inductive CloseResult where
  | completed
  /-- `ConnectionAbortedError` raised by `_flush_outbound`. -/
  | connection_aborted
  /-- Suspended forever on an empty reply queue. -/
  | blocked
deriving DecidableEq

/-- The unconditional tail of `Connection.close`:
`await self._communicate_task` then `self.writer.close()`. -/
def close_tail (st : ConnectionState) : ConnectionState :=
  { st with task_awaited := true,
            writer_closed := true,
            trace := st.trace ++ [.awaited_task, .closed_writer] }

/-- Translation of `Connection.close(self, reply_code, reply_text, ...)`:
when `self.closed` is false, `super().close(...)` encodes the Close method,
`_flush_outbound` raises if the reader is already at end-of-stream and writes
otherwise, and `self._reply_queue.get()` is awaited unless the reader is at
end-of-stream at the check after the drain (`eof_after_drain` is what the
reader reports there, possibly flipped during the drain suspension);
afterwards — and also when `self.closed` was already true —
`self._communicate_task` is awaited and `self.writer.close()` is called. -/
def close (reply_code : Nat) (reply_text : String) (eof_after_drain : Bool)
    (st : ConnectionState) : CloseResult × ConnectionState :=
  if st.closed then (.completed, close_tail st)
  else
    let st1 := engine_call (close_method_name reply_code reply_text) st
    if st1.reader_at_eof then (.connection_aborted, st1)
    else
      let st2 : ConnectionState :=
        { st1 with written := st1.written ++ st1.pending_out,
                   pending_out := [],
                   reader_at_eof := eof_after_drain,
                   trace := st1.trace ++ [.wrote st1.pending_out, .drained] }
      if st2.reader_at_eof then (.completed, close_tail st2)
      else
        match st2.reply_queue with
        | [] => (.blocked, st2)
        | r :: rest =>
          (.completed, close_tail
            { st2 with reply_queue := rest,
                       trace := st2.trace ++ [.popped_reply r] })

end Connection

/-- A quiescent open channel, base point for concrete scenarios. -/
def ch_base : ChannelState :=
  { closed := false, reader_at_eof := false, pending_out := [], written := [],
    reply_queue := [], get_queue := [], consumed_messages := [],
    returned_messages := [], ack_event := none, event_gen := 0,
    signalled := [], unconfirmed_set := [], trace := [] }

/-- A quiescent open connection, base point for concrete scenarios. -/
def conn_base : ConnectionState :=
  { closed := false, reader_at_eof := false, frame_max := 4096, stream := [],
    data := [], pending_out := [], written := [], reply_queue := [],
    channels := [], task_awaited := false, writer_closed := false,
    trace := [] }

/-! ## Helper lemmas -/

theorem flush_outbound_eof (has_reply : Bool) (st : ChannelState)
    (h : st.reader_at_eof = true) :
    Channel.flush_outbound has_reply st = (.connection_aborted, st) := by
  simp [Channel.flush_outbound, h]

theorem flush_outbound_no_reply (st : ChannelState)
    (h : st.reader_at_eof = false) :
    Channel.flush_outbound false st = (.returned none, Channel.write_and_drain st) := by
  simp [Channel.flush_outbound, h]

theorem flush_outbound_pops (st : ChannelState) (r : Reply) (rest : List Reply)
    (h : st.reader_at_eof = false) (hq : st.reply_queue = r :: rest) :
    Channel.flush_outbound true st =
      ((match r with
        | .error c t => FlushOutcome.raised c t
        | .method m => FlushOutcome.returned (some m)),
       { Channel.write_and_drain st with
           reply_queue := rest,
           trace := (Channel.write_and_drain st).trace
             ++ [.popped_reply r] }) := by
  cases r <;> simp [Channel.flush_outbound, Channel.write_and_drain, h, hq]

/-! ## Claims -/

/-- C1: for every synchronous Channel or Connection operation, if the peer's
end-of-stream has already been observed on the reader at the moment the
operation flushes, the operation fails with a connection-aborted error before
writing any bytes (the state, in particular `written`, is untouched);
otherwise the outbound bytes are written and drained. -/
theorem c1_flush_aborts_on_eof_else_writes
    (st : ChannelState) (cst : ConnectionState) (has_reply : Bool) :
    (st.reader_at_eof = true →
      Channel.flush_outbound has_reply st = (.connection_aborted, st)) ∧
    (st.reader_at_eof = false →
      (Channel.flush_outbound has_reply st).2.written
          = st.written ++ st.pending_out ∧
      (Channel.flush_outbound has_reply st).1
          ≠ FlushOutcome.connection_aborted ∧
      ∃ rest, (Channel.flush_outbound has_reply st).2.trace
          = st.trace ++ [ChAction.wrote st.pending_out, ChAction.drained]
              ++ rest) ∧
    (cst.reader_at_eof = true → Connection.flush_outbound cst = none) ∧
    (cst.reader_at_eof = false →
      ∃ cst', Connection.flush_outbound cst = some cst' ∧
        cst'.written = cst.written ++ cst.pending_out ∧
        cst'.trace = cst.trace
          ++ [ConnAction.wrote cst.pending_out, ConnAction.drained]) := by
  refine ⟨fun h => flush_outbound_eof has_reply st h, fun h => ?_,
          fun h => by simp [Connection.flush_outbound, h],
          fun h => by simp [Connection.flush_outbound, h]⟩
  cases has_reply with
  | false =>
    refine ⟨by simp [flush_outbound_no_reply st h, Channel.write_and_drain],
            by simp [flush_outbound_no_reply st h], ?_⟩
    exact ⟨[], by simp [flush_outbound_no_reply st h, Channel.write_and_drain]⟩
  | true =>
    cases hq : st.reply_queue with
    | nil =>
      refine ⟨?_, ?_, ⟨[], ?_⟩⟩ <;>
        simp [Channel.flush_outbound, Channel.write_and_drain, h, hq]
    | cons r rest =>
      cases r with
      | error c t =>
        refine ⟨?_, ?_, ⟨[ChAction.popped_reply (.error c t)], ?_⟩⟩ <;>
          simp [flush_outbound_pops st _ rest h hq, Channel.write_and_drain]
      | method m =>
        refine ⟨?_, ?_, ⟨[ChAction.popped_reply (.method m)], ?_⟩⟩ <;>
          simp [flush_outbound_pops st _ rest h hq, Channel.write_and_drain]

/-- C1 witness: the theorem applied at concrete states — an EOF channel state
aborts unchanged, and a live connection state writes its pending bytes. -/
theorem c1_witness :
    Channel.flush_outbound true { ch_base with reader_at_eof := true }
        = (.connection_aborted, { ch_base with reader_at_eof := true }) ∧
    ∃ cst', Connection.flush_outbound { conn_base with pending_out := [7] }
        = some cst' ∧
      cst'.written = conn_base.written ++ [7] ∧
      cst'.trace = conn_base.trace
        ++ [ConnAction.wrote [7], ConnAction.drained] :=
  ⟨(c1_flush_aborts_on_eof_else_writes
      { ch_base with reader_at_eof := true } conn_base true).1 rfl,
   (c1_flush_aborts_on_eof_else_writes ch_base
      { conn_base with pending_out := [7] } true).2.2.2 rfl⟩

/-- C2: for every synchronous Channel operation whose protocol-engine call
reports that a reply is expected, the operation pops the channel's reply queue
after flushing (visible in the trace: the pop follows the write and drain); if
the popped value is an AMQP error it is raised with its code and text,
otherwise the popped value is returned as the successful result. -/
theorem c2_reply_expected_pops_reply
    (name : String) (st : ChannelState) (r : Reply) (rest : List Reply)
    (h : st.reader_at_eof = false) (hq : st.reply_queue = r :: rest) :
    (Channel.synchronous_method name true st).2.reply_queue = rest ∧
    (∀ c t, r = .error c t →
        (Channel.synchronous_method name true st).1 = .raised c t) ∧
    (∀ m, r = .method m →
        (Channel.synchronous_method name true st).1 = .returned (some m)) ∧
    (Channel.synchronous_method name true st).2.trace
      = st.trace ++ [ChAction.encoded name,
          ChAction.wrote (st.pending_out ++ Channel.encode_method name),
          ChAction.drained, ChAction.popped_reply r] := by
  cases r <;>
    simp [Channel.synchronous_method, Channel.flush_outbound,
          Channel.engine_call, Channel.write_and_drain, h, hq]

/-- C2 witness: on a concrete channel whose reply queue holds a broker error,
the operation raises it; with a success method queued, it returns it. -/
theorem c2_witness :
    (Channel.synchronous_method "exchange.declare" true
        { ch_base with reply_queue := [Reply.error 404 "NOT_FOUND"] }).1
      = .raised 404 "NOT_FOUND" ∧
    (Channel.synchronous_method "queue.declare" true
        { ch_base with
            reply_queue := [Reply.method (.generic "queue.declare-ok")] }).1
      = .returned (some (.generic "queue.declare-ok")) :=
  ⟨(c2_reply_expected_pops_reply "exchange.declare"
      { ch_base with reply_queue := [Reply.error 404 "NOT_FOUND"] }
      (Reply.error 404 "NOT_FOUND") [] rfl rfl).2.1 404 "NOT_FOUND" rfl,
   (c2_reply_expected_pops_reply "queue.declare"
      { ch_base with
          reply_queue := [Reply.method (.generic "queue.declare-ok")] }
      (Reply.method (.generic "queue.declare-ok")) [] rfl rfl).2.2.1
      (.generic "queue.declare-ok") rfl⟩

/-- C10: for every Channel operation for which the protocol engine reports
that no reply is expected (for example `basic_publish`), the operation writes
and drains the outbound bytes and then returns `None` without reading from
the reply queue, leaving the reply queue unchanged. -/
theorem c10_no_reply_returns_none
    (st : ChannelState) (h : st.reader_at_eof = false) :
    (Channel.basic_publish st).1 = .returned none ∧
    (Channel.basic_publish st).2.reply_queue = st.reply_queue ∧
    (Channel.basic_publish st).2.written
      = st.written ++ st.pending_out ++ Channel.encode_method "basic.publish" ∧
    (Channel.basic_publish st).2.trace
      = st.trace ++ [ChAction.encoded "basic.publish",
          ChAction.wrote (st.pending_out
            ++ Channel.encode_method "basic.publish"),
          ChAction.drained] ∧
    (∀ name, (Channel.synchronous_method name false st).1 = .returned none ∧
      (Channel.synchronous_method name false st).2.reply_queue
        = st.reply_queue) := by
  refine ⟨?_, ?_, ?_, ?_, fun name => ⟨?_, ?_⟩⟩ <;>
    simp [Channel.basic_publish, Channel.synchronous_method,
          Channel.engine_call, Channel.write_and_drain,
          Channel.flush_outbound, h]

/-- C10 witness: the theorem applied at a concrete channel state with a
non-empty reply queue: publish returns None and leaves the queue alone. -/
theorem c10_witness :
    (Channel.basic_publish
        { ch_base with
            reply_queue := [Reply.method .channel_open_ok] }).1
      = .returned none ∧
    (Channel.basic_publish
        { ch_base with
            reply_queue := [Reply.method .channel_open_ok] }).2.reply_queue
      = [Reply.method .channel_open_ok] :=
  ⟨(c10_no_reply_returns_none
      { ch_base with reply_queue := [Reply.method .channel_open_ok] } rfl).1,
   (c10_no_reply_returns_none
      { ch_base with reply_queue := [Reply.method .channel_open_ok] }
      rfl).2.1⟩

/-- C4: the "empty" reply handler enqueues exactly one "no message" sentinel
(`None`) on the get-result queue — for any state, one invocation appends one
sentinel — and a `basic_get` whose broker answer is the empty reply returns
that sentinel after its flush completes, leaving no second sentinel behind. -/
theorem c4_basic_get_empty_sentinel
    (st : ChannelState) (h : st.reader_at_eof = false)
    (hr : st.reply_queue = []) (hg : st.get_queue = []) :
    (∀ st' : ChannelState, (Channel.receive_BasicGetEmpty st').get_queue
        = st'.get_queue ++ [none]) ∧
    (Channel.receive_BasicGetEmpty st).get_queue = [none] ∧
    (Channel.basic_get false (Channel.receive_BasicGetEmpty st)).1
      = .got none ∧
    (Channel.basic_get false (Channel.receive_BasicGetEmpty st)).2.get_queue
      = [] := by
  refine ⟨fun st' => by simp [Channel.receive_BasicGetEmpty], ?_, ?_, ?_⟩ <;>
    simp [Channel.receive_BasicGetEmpty, Channel.basic_get,
          Channel.flush_outbound, Channel.engine_call,
          Channel.write_and_drain, h, hr, hg]

/-- C4 witness: on a quiescent open channel, the empty-reply handler enqueues
the sentinel and `basic_get` returns it, leaving the get queue empty. -/
theorem c4_witness :
    (Channel.receive_BasicGetEmpty ch_base).get_queue = [none] ∧
    (Channel.basic_get false (Channel.receive_BasicGetEmpty ch_base)).1
      = .got none ∧
    (Channel.basic_get false
        (Channel.receive_BasicGetEmpty ch_base)).2.get_queue = [] :=
  ⟨(c4_basic_get_empty_sentinel ch_base rfl rfl rfl).2.1,
   (c4_basic_get_empty_sentinel ch_base rfl rfl rfl).2.2.1,
   (c4_basic_get_empty_sentinel ch_base rfl rfl rfl).2.2.2⟩

theorem receive_BasicAck_isSome (tag : Nat) (mult : Bool) (st : ChannelState)
    (h : st.ack_event.isSome = true) :
    (Channel.receive_BasicAck tag mult st).isSome = true := by
  rcases hae : st.ack_event with _ | e
  · rw [hae] at h; simp at h
  · by_cases hun :
      (Channel.engine_receive_BasicAck tag mult st.unconfirmed_set).isEmpty <;>
      simp [Channel.receive_BasicAck, hae, hun]

/-- C6: in every call to `confirm_select` the Confirmation Signal is assigned
a fresh unset event before the protocol engine encodes the request and before
any outbound bytes are flushed (the trace starts with the assignment, then
the encode, then the write), so an acknowledgment handled on the resulting
state never observes an absent (`None`) signal. -/
theorem c6_confirm_select_assigns_event_first (st : ChannelState) :
    (Channel.confirm_select st).2.ack_event
      = some ⟨false, st.event_gen⟩ ∧
    (∃ rest, (Channel.confirm_select st).2.trace
      = st.trace ++ [ChAction.assigned_ack_event,
                     ChAction.encoded "confirm.select"] ++ rest) ∧
    (∀ tag mult, (Channel.receive_BasicAck tag mult
        (Channel.confirm_select st).2).isSome = true) := by
  have hmain : (Channel.confirm_select st).2.ack_event
      = some ⟨false, st.event_gen⟩ ∧
      ∃ rest, (Channel.confirm_select st).2.trace
        = st.trace ++ [ChAction.assigned_ack_event,
                       ChAction.encoded "confirm.select"] ++ rest := by
    cases heof : st.reader_at_eof with
    | true =>
      refine ⟨?_, ⟨[], ?_⟩⟩ <;>
        simp [Channel.confirm_select, Channel.flush_outbound,
              Channel.engine_call, heof]
    | false =>
      cases hq : st.reply_queue with
      | nil =>
        refine ⟨?_, ⟨[ChAction.wrote (st.pending_out
            ++ Channel.encode_method "confirm.select"), ChAction.drained],
            ?_⟩⟩ <;>
          simp [Channel.confirm_select, Channel.flush_outbound,
                Channel.engine_call, Channel.write_and_drain, heof, hq]
      | cons r rest =>
        cases r with
        | error c t =>
          refine ⟨?_, ⟨[ChAction.wrote (st.pending_out
              ++ Channel.encode_method "confirm.select"), ChAction.drained,
              ChAction.popped_reply (.error c t)], ?_⟩⟩ <;>
            simp [Channel.confirm_select, Channel.flush_outbound,
                  Channel.engine_call, Channel.write_and_drain, heof, hq]
        | method m =>
          refine ⟨?_, ⟨[ChAction.wrote (st.pending_out
              ++ Channel.encode_method "confirm.select"), ChAction.drained,
              ChAction.popped_reply (.method m)], ?_⟩⟩ <;>
            simp [Channel.confirm_select, Channel.flush_outbound,
                  Channel.engine_call, Channel.write_and_drain, heof, hq]
  exact ⟨hmain.1, hmain.2, fun tag mult =>
    receive_BasicAck_isSome tag mult _ (by rw [hmain.1]; rfl)⟩

/-- C5 counterexample: an acknowledgment handled while the unconfirmed set is
already empty causes no nonzero→zero transition, yet the code sets the
Confirmation Signal (event generation 0 is signalled) and replaces it with a
fresh event — refuting "never set by an acknowledgment that does not cause
such a transition". -/
theorem c5_counterexample :
    (Channel.confirm_select ch_base).2.unconfirmed_set = [] ∧
    (Channel.receive_BasicAck 1 true
        (Channel.confirm_select ch_base).2).map ChannelState.signalled
      = some [0] ∧
    (Channel.receive_BasicAck 1 true
        (Channel.confirm_select ch_base).2).map ChannelState.ack_event
      = some (some ⟨false, 1⟩) := by decide

/-- C5 (amended): the Confirmation Signal is set and immediately replaced by
a fresh unset event exactly when the unconfirmed set is empty after the
acknowledgment is applied; every nonzero→zero transition therefore sets it,
but an acknowledgment handled while the count is already zero also sets and
replaces it. -/
theorem c5_signal_iff_empty_after
    (tag : Nat) (mult : Bool) (st : ChannelState) (e : Event)
    (hae : st.ack_event = some e) :
    ((Channel.engine_receive_BasicAck tag mult st.unconfirmed_set).isEmpty
        = true →
      Channel.receive_BasicAck tag mult st
        = some { st with
            unconfirmed_set :=
              Channel.engine_receive_BasicAck tag mult st.unconfirmed_set,
            signalled := st.signalled ++ [e.gen],
            ack_event := some ⟨false, st.event_gen⟩,
            event_gen := st.event_gen + 1,
            trace := st.trace ++ [ChAction.set_signal e.gen] }) ∧
    ((Channel.engine_receive_BasicAck tag mult st.unconfirmed_set).isEmpty
        = false →
      Channel.receive_BasicAck tag mult st
        = some { st with
            unconfirmed_set :=
              Channel.engine_receive_BasicAck tag mult st.unconfirmed_set }) := by
  constructor <;> intro hun <;> simp [Channel.receive_BasicAck, hae, hun]

/-- C5 witness: a channel in confirm mode with one unconfirmed tag; the
broker's ack for it empties the set, so the signal (generation 0) is set and
replaced by the fresh unset event of generation 1. -/
theorem c5_witness :
    Channel.receive_BasicAck 1 false
        { ch_base with ack_event := some ⟨false, 0⟩, event_gen := 1,
                       unconfirmed_set := [1] }
      = some { ch_base with
          unconfirmed_set := [],
          signalled := [0],
          ack_event := some ⟨false, 1⟩,
          event_gen := 2,
          trace := [ChAction.set_signal 0] } := by
  have h := (c5_signal_iff_empty_after 1 false
      { ch_base with ack_event := some ⟨false, 0⟩, event_gen := 1,
                     unconfirmed_set := [1] }
      ⟨false, 0⟩ rfl).1 (by decide)
  simpa [Channel.engine_receive_BasicAck, ch_base] using h

/-- C3 counterexample: with the closed flag already true, `Connection.close`
is not a no-op — it still awaits the I/O loop task and closes the socket's
write side, changing both flags. -/
theorem c3_counterexample :
    (Connection.close 0 "" false
        { conn_base with closed := true }).2.writer_closed = true ∧
    conn_base.writer_closed = false ∧
    (Connection.close 0 "" false
        { conn_base with closed := true }).2.task_awaited = true ∧
    conn_base.task_awaited = false := by decide

/-- C3 (amended): calling `close()` on a Channel whose closed flag is true is
a complete no-op; calling `close()` on a Connection whose closed flag is true
sends nothing and pops no reply, but still awaits the I/O loop task and
closes the socket's write side. -/
theorem c3_close_on_closed
    (c code : Nat) (t text : String) (e : Bool)
    (st : ChannelState) (cst : ConnectionState)
    (hch : st.closed = true) (hcn : cst.closed = true) :
    Channel.close c t st = (none, st) ∧
    Connection.close code text e cst
      = (.completed,
         { cst with
             task_awaited := true,
             writer_closed := true,
             trace := cst.trace
               ++ [ConnAction.awaited_task, ConnAction.closed_writer] }) := by
  constructor
  · simp [Channel.close, hch]
  · simp [Connection.close, Connection.close_tail, hcn]

/-- C3 witness: the amended behaviour at concrete closed states. -/
theorem c3_witness :
    Channel.close 0 "" { ch_base with closed := true }
      = (none, { ch_base with closed := true }) ∧
    Connection.close 0 "" false { conn_base with closed := true }
      = (.completed,
         { conn_base with
             closed := true,
             task_awaited := true,
             writer_closed := true,
             trace := [ConnAction.awaited_task, ConnAction.closed_writer] }) :=
  ⟨(c3_close_on_closed 0 0 "" "" false { ch_base with closed := true }
      { conn_base with closed := true } rfl rfl).1,
   (c3_close_on_closed 0 0 "" "" false { ch_base with closed := true }
      { conn_base with closed := true } rfl rfl).2⟩

/-- C7: on each iteration of the I/O loop taken while the closed flag is
false, the loop reads a chunk of at most 10 times the negotiated max frame
size, appends it to the buffer, and terminates if the chunk is empty; the
loop body is not entered once the closed flag is observed true. -/
theorem c7_loop_iteration
    (fo : Bytes → List Frame) (eff : Frame → Bytes × Bool)
    (st : ConnectionState) (n : Nat) :
    (st.closed = true →
      Connection.communicate_step fo eff st = .exited .closed_flag st ∧
      Connection.communicate fo eff (n + 1) st = .exited .closed_flag st) ∧
    (st.closed = false →
      (Connection.read_chunk10 st).length ≤ 10 * st.frame_max ∧
      (Connection.after_read st).data = st.data ++ Connection.read_chunk10 st ∧
      (Connection.read_chunk10 st = [] →
        Connection.communicate_step fo eff st = .exited .end_of_stream st) ∧
      (Connection.read_chunk10 st ≠ [] →
        Connection.communicate_step fo eff st =
          match Connection.handle_frames eff
              (fo (Connection.after_read st).data)
              (Connection.after_read st) with
          | .error e => .failed e
          | .ok st' => .next st')) := by
  constructor
  · intro h
    constructor <;>
      simp [Connection.communicate, Connection.communicate_step, h]
  · intro h
    refine ⟨?_, rfl, ?_, ?_⟩
    · exact List.length_take_le (10 * st.frame_max) st.stream
    · intro hnil
      simp [Connection.communicate_step, h, hnil]
    · intro hne
      simp [Connection.communicate_step, h, List.isEmpty_iff, hne]

/-- C7 witness: with the closed flag true the iteration exits without
entering the body; with it false and bytes available, the chunk obeys the
bound, is appended, and a nonempty chunk proceeds to frame handling. -/
theorem c7_witness :
    Connection.communicate_step (fun _ => []) (fun _ => ([], false))
        { conn_base with closed := true }
      = .exited .closed_flag { conn_base with closed := true } ∧
    Connection.communicate_step (fun _ => []) (fun _ => ([], false)) conn_base
      = .exited .end_of_stream conn_base ∧
    (Connection.read_chunk10
        { conn_base with stream := [1, 2, 3] }).length ≤ 10 * 4096 :=
  ⟨((c7_loop_iteration (fun _ => []) (fun _ => ([], false))
      { conn_base with closed := true } 0).1 rfl).1,
   ((c7_loop_iteration (fun _ => []) (fun _ => ([], false))
      conn_base 0).2 rfl).2.2.1 rfl,
   ((c7_loop_iteration (fun _ => []) (fun _ => ([], false))
      { conn_base with stream := [1, 2, 3] } 0).2 rfl).1⟩

/-- C8: every extracted frame is dispatched to the Connection's own handler
when its channel id is 0 and to the registry channel looked up by that id
otherwise, and after each handler the loop flushes the pending outbound
bytes before trimming the frame's consumed bytes and before the next frame:
the trace is exactly dispatch–write–drain–trim per frame, the buffer loses
each frame's size, everything each handler queued is on the wire, and no
outbound bytes remain pending between frames. -/
theorem c8_frames_dispatch_flush_trim
    (eff : Frame → Bytes × Bool) (frames : List Frame) (st : ConnectionState)
    (heof : st.reader_at_eof = false) (hpend : st.pending_out = [])
    (hch : ∀ f ∈ frames, f.channel_id = 0 ∨ f.channel_id ∈ st.channels) :
    ∃ st', Connection.handle_frames eff frames st = .ok st' ∧
      st'.trace = st.trace
        ++ (frames.map (Connection.frame_actions eff)).flatten ∧
      st'.data = frames.foldl (fun d f => d.drop f.size) st.data ∧
      st'.written = st.written ++ (frames.map (fun f => (eff f).1)).flatten ∧
      st'.pending_out = [] ∧
      st'.channels = st.channels ∧
      st'.reader_at_eof = false := by
  induction frames generalizing st with
  | nil =>
    exact ⟨st, rfl, by simp, rfl, by simp, hpend, rfl, heof⟩
  | cons f fs ih =>
    have hf := hch f (List.mem_cons_self f fs)
    have hone : Connection.handle_one_frame eff f st = .ok
        { st with closed := st.closed || (eff f).2,
                  written := st.written ++ (eff f).1,
                  pending_out := [],
                  data := st.data.drop f.size,
                  trace := st.trace ++ Connection.frame_actions eff f } := by
      by_cases h0 : f.channel_id = 0
      · simp [Connection.handle_one_frame, Connection.flush_outbound,
              Connection.frame_actions, heof, hpend, h0]
      · rcases hf with hf | hf
        · exact absurd hf h0
        · simp [Connection.handle_one_frame, Connection.flush_outbound,
                Connection.frame_actions, heof, hpend, h0, hf]
    obtain ⟨st', hrun, htr, hdata, hwr, hpend', hchn, heof'⟩ :=
      ih { st with closed := st.closed || (eff f).2,
                   written := st.written ++ (eff f).1,
                   pending_out := [],
                   data := st.data.drop f.size,
                   trace := st.trace ++ Connection.frame_actions eff f }
        heof rfl (fun g hg => hch g (List.mem_cons_of_mem f hg))
    refine ⟨st', ?_, ?_, ?_, ?_, hpend', hchn, heof'⟩
    · simp only [Connection.handle_frames, hone]
      exact hrun
    · rw [htr]; simp
    · rw [hdata]; simp
    · rw [hwr]; simp

/-- C8 witness: two concrete frames, one for the connection (id 0) and one
for registered channel 1, processed from a concrete state: the trace shows
dispatch, flush and trim in order for each frame. -/
theorem c8_witness :
    ∃ st', Connection.handle_frames (fun f => (f.payload, false))
        [⟨0, 2, [9]⟩, ⟨1, 1, [8]⟩]
        { conn_base with channels := [1], data := [1, 2, 3] } = .ok st' ∧
      st'.trace
        = ([⟨0, 2, [9]⟩, ⟨1, 1, [8]⟩].map
            (Connection.frame_actions (fun f => (f.payload, false)))).flatten ∧
      st'.data = [⟨0, 2, [9]⟩, ⟨1, 1, [8]⟩].foldl
          (fun d (f : Frame) => d.drop f.size) [1, 2, 3] ∧
      st'.written
        = ([⟨0, 2, [9]⟩, ⟨1, 1, [8]⟩].map
            (fun (f : Frame) => f.payload)).flatten := by
  obtain ⟨st', h1, h2, h3, h4, _⟩ := c8_frames_dispatch_flush_trim
    (fun f => (f.payload, false)) [⟨0, 2, [9]⟩, ⟨1, 1, [8]⟩]
    { conn_base with channels := [1], data := [1, 2, 3] }
    rfl rfl (by decide)
  exact ⟨st', h1, by simpa using h2, h3, by simpa using h4⟩

/-- C9 counterexample: close() called on an open Connection whose reader has
already observed end-of-stream raises connection-aborted at the flush:
nothing is written, the I/O loop task is not awaited and the socket's write
side is never closed — contradicting the claimed unconditional sequence. -/
theorem c9_counterexample :
    (Connection.close 320 "bye" true
        { conn_base with reader_at_eof := true }).1 = .connection_aborted ∧
    (Connection.close 320 "bye" true
        { conn_base with reader_at_eof := true }).2.writer_closed = false ∧
    (Connection.close 320 "bye" true
        { conn_base with reader_at_eof := true }).2.task_awaited = false ∧
    (Connection.close 320 "bye" true
        { conn_base with reader_at_eof := true }).2.written = [] := by
  refine ⟨?_, ?_, ?_, ?_⟩ <;>
    simp [Connection.close, Connection.engine_call, conn_base]

/-- C9 (amended): when close() is called on an open Connection and
end-of-stream has not been observed at the flush, it sends the Close method
and flushes it, waits for CloseOK on the reply queue unless end-of-stream is
observed at the post-drain check, then waits for the I/O loop task, and only
after that closes the socket's write side; if end-of-stream was already
observed at the flush, close raises connection-aborted without sending,
without awaiting the task and without closing the socket. -/
theorem c9_close_sequence
    (code : Nat) (text : String) (e : Bool)
    (st cst : ConnectionState) (r : Reply) (rq : List Reply)
    (hcl : st.closed = false) (heof : st.reader_at_eof = false)
    (hq : st.reply_queue = r :: rq)
    (hcl2 : cst.closed = false) (heof2 : cst.reader_at_eof = true) :
    ((Connection.close code text e st).1 = .completed ∧
      (Connection.close code text e st).2.written
        = st.written ++ st.pending_out
          ++ Channel.encode_method (Connection.close_method_name code text) ∧
      (Connection.close code text e st).2.task_awaited = true ∧
      (Connection.close code text e st).2.writer_closed = true ∧
      (e = true →
        (Connection.close code text e st).2.reply_queue = st.reply_queue) ∧
      (e = false →
        (Connection.close code text e st).2.reply_queue = rq) ∧
      (Connection.close code text e st).2.trace = st.trace
        ++ [ConnAction.encoded (Connection.close_method_name code text),
            ConnAction.wrote (st.pending_out ++ Channel.encode_method
              (Connection.close_method_name code text)),
            ConnAction.drained]
        ++ (if e then [] else [ConnAction.popped_reply r])
        ++ [ConnAction.awaited_task, ConnAction.closed_writer]) ∧
    ((Connection.close code text e cst).1 = .connection_aborted ∧
      (Connection.close code text e cst).2.written = cst.written ∧
      (Connection.close code text e cst).2.task_awaited = cst.task_awaited ∧
      (Connection.close code text e cst).2.writer_closed
        = cst.writer_closed) := by
  constructor
  · cases e <;>
      refine ⟨?_, ?_, ?_, ?_, ?_, ?_, ?_⟩ <;>
      simp [Connection.close, Connection.close_tail,
            Connection.engine_call, hcl, heof, hq]
  · refine ⟨?_, ?_, ?_, ?_⟩ <;>
      simp [Connection.close, Connection.engine_call, hcl2, heof2]

/-- C9 witness: a concrete open connection with a CloseOK already queued
completes the full sequence, and a concrete open connection at end-of-stream
aborts without closing the writer. -/
theorem c9_witness :
    (Connection.close 0 "" false
        { conn_base with reply_queue := [Reply.method .connection_close_ok]
        }).1 = .completed ∧
    (Connection.close 0 "" false
        { conn_base with reply_queue := [Reply.method .connection_close_ok]
        }).2.writer_closed = true ∧
    (Connection.close 0 "" false
        { conn_base with reply_queue := [Reply.method .connection_close_ok]
        }).2.reply_queue = [] ∧
    (Connection.close 0 "" false
        { conn_base with reader_at_eof := true }).2.writer_closed
      = conn_base.writer_closed := by
  obtain ⟨hmain, habort⟩ := c9_close_sequence 0 "" false
    { conn_base with reply_queue := [Reply.method .connection_close_ok] }
    { conn_base with reader_at_eof := true }
    (Reply.method .connection_close_ok) [] rfl rfl rfl rfl rfl
  exact ⟨hmain.1, hmain.2.2.2.1, hmain.2.2.2.2.2.1 rfl, habort.2.2.2⟩

end Amqproto
